import Mathlib

/-!
Verification of the token-budget packing and relevance-filter core of the
akasha RAG toolkit (src/akasha/helper.py), shallowly embedded in Lean 4.

Modelling conventions:
* Python `str` is Lean `String`; token counters (`myTokenizer.compute_tokens`
  with a fixed model name) are passed as an explicit parameter
  `tok : String → Nat` since the tokenizer is an external collaborator.
* Python `int` budgets are `Int` where a claim involves budgets ≤ 0
  (`_get_text`), `Nat` otherwise.
* Fallible code is `Option`: `none` models an uncaught Python exception
  (`IndexError` from out-of-range list indexing) or divergence of a loop.
* External collaborators (`call_batch_model`, `akasha.prompts.format_sys_prompt`,
  the fixed grader system prompts) are explicit function/string parameters.
* `while` loops become structural recursion; loops whose progress is a strictly
  increasing index bounded by a list length take a fuel argument that provably
  dominates the iteration count (`length + 1`), so the fuel-exhaustion branch is
  unreachable there; the one loop that can genuinely diverge (`self_RAG` with
  `process_num = 0`) maps fuel exhaustion to `none`.
-/

/-- ASCII lower-casing of one character, the part of Python `str.lower` exercised
by the grading responses: map A-Z to a-z, leave everything else unchanged. -/
def pyLowerChar (c : Char) : Char :=
  if 'A' ≤ c ∧ c ≤ 'Z' then Char.ofNat (c.toNat + 32) else c

/-- Python `s.lower()` (restricted to ASCII letters, see `pyLowerChar`). -/
def pyLower (s : String) : String := ⟨s.data.map pyLowerChar⟩

/-- Python substring test `needle in haystack` on character lists. -/
def pyInChars (needle : List Char) : List Char → Bool
  | [] => needle.isPrefixOf ([] : List Char)
  | c :: rest => needle.isPrefixOf (c :: rest) || pyInChars needle rest

/-- The grading-verdict rule used at both call sites of `call_batch_model`:
Python `'yes' in response.lower()`. -/
def containsYes (response : String) : Bool :=
  pyInChars ("yes".data) ((pyLower response).data)

/-- Python `content.replace('\n', '')`: remove every newline character. -/
def stripNL (s : String) : String := ⟨s.data.filter (fun c => c ≠ '\n')⟩

/-- The `while` loop of `_get_text` (src/akasha/helper.py:681-687):
while `cur_count + words_len < max_input_tokens and i < len(texts)`, add the
current chunk's token count to the running count, append the chunk plus a
newline to the accumulated text, advance `i`, and if chunks remain recompute
`words_len` for the next chunk.  The fuel argument starts at
`texts.length + 1`, which strictly dominates the number of iterations (each
iteration requires `i < texts.length` and increments `i`), so the fuel-zero
branch is unreachable from `_get_text`. -/
def getTextGo (tok : String → Nat) (texts : List String) (max_input_tokens : Int) :
    Nat → Nat → Nat → String → Nat → Nat × String × Nat
  | 0, cur_count, _, cur_text, i => (cur_count, cur_text, i)
  | fuel + 1, cur_count, words_len, cur_text, i =>
    if ((cur_count + words_len : Nat) : Int) < max_input_tokens ∧ i < texts.length then
      getTextGo tok texts max_input_tokens fuel (cur_count + words_len)
        (match texts[i + 1]? with
          | some tnext => tok tnext
          | none => words_len)
        (cur_text ++ texts.getD i ("") ++ "\n") (i + 1)
    else (cur_count, cur_text, i)

/-- Token-Budget Packer `_get_text` (src/akasha/helper.py:661-689).
`cur_count` starts at the token count of `previous_summary`, `words_len` at the
token count of `texts[i]` — an access that raises `IndexError` (here: `none`)
whenever `i ≥ len(texts)`, in particular on an empty chunk list.  Returns
`(cur_count, cur_text, i)` after the loop. -/
def _get_text (tok : String → Nat) (texts : List String) (previous_summary : String)
    (i : Nat) (max_input_tokens : Int) : Option (Nat × String × Nat) :=
  (texts[i]?).map fun t0 =>
    getTextGo tok texts max_input_tokens (texts.length + 1)
      (tok previous_summary) (tok t0) "" i

/-- Transcript entry of `retri_history_messages`: a dict with keys `role` and
`content`. -/
structure Message where
  role : String
  content : String
deriving DecidableEq

/-- Python `range(i, -1, -2)` for `i ≥ 0`: the descending index walk of the
History Packer. -/
def pyRangeDown2 : Nat → List Nat
  | 0 => [0]
  | 1 => [1]
  | i + 2 => (i + 2) :: pyRangeDown2 i

/-- Python list read `messages[i - 1]` as executed by `retri_history_messages`:
for `i ≥ 1` it is the preceding entry, for `i = 0` Python's negative indexing
wraps `messages[-1]` to the last entry.  The walk only produces indices below
`messages.length`, so the default is unreachable. -/
def pyPrevMessage (messages : List Message) (i : Nat) : Message :=
  messages.getD (if i = 0 then messages.length - 1 else i - 1) ⟨"", ""⟩

/-- The `for i in range(len(messages)-1, -1, -2)` loop of
`retri_history_messages` (src/akasha/helper.py:1020-1044), processed here as
recursion over the precomputed index list.  State: `cur_len`, `count`, `ret`.
Per index: break when `count >= pairs`; when the alternation check
`messages[i].role != role2 or messages[i-1].role != role1` fails, the source
executes `i += 1; continue` — reassigning the loop variable of a `for ... in
range(...)` has no effect in Python, so the walk simply moves on to the next
index two positions down, which is what the recursive call does; otherwise
build the assistant line and the user line, and append each only while the
running length stays within `max_input_tokens`, breaking (possibly mid-pair)
on overflow. -/
def retriGo (tok : String → Nat) (messages : List Message) (pairs : Nat)
    (max_input_tokens : Nat) (role1 role2 : String) :
    List Nat → Nat → Nat → List String → Nat × Nat × List String
  | [], cur_len, count, ret => (cur_len, count, ret)
  | i :: rest, cur_len, count, ret =>
    if pairs ≤ count then (cur_len, count, ret)
    else if (messages.getD i ⟨"", ""⟩).role ≠ role2 ∨
        (pyPrevMessage messages i).role ≠ role1 then
      retriGo tok messages pairs max_input_tokens role1 role2 rest cur_len count ret
    else
      match role2 ++ ": " ++ stripNL (messages.getD i ⟨"", ""⟩).content ++ "\n",
          role1 ++ ": " ++ stripNL (pyPrevMessage messages i).content with
      | texta, textq =>
        if max_input_tokens < cur_len + tok texta then (cur_len, count, ret)
        else if max_input_tokens < cur_len + tok texta + tok textq then
          (cur_len + tok texta, count, ret ++ [texta])
        else
          retriGo tok messages pairs max_input_tokens role1 role2 rest
            (cur_len + tok texta + tok textq) (count + 1) (ret ++ [texta, textq])

/-- History Packer `retri_history_messages` (src/akasha/helper.py:994-1051):
walk the transcript backward in steps of two, collect up to `pairs`
assistant/user pairs within the token budget, then reverse the collected lines
back to chronological order and wrap them in the fixed delimiter; return
`("", 0)` when no complete pair was collected. -/
def retri_history_messages (tok : String → Nat) (messages : List Message)
    (pairs : Nat) (max_input_tokens : Nat) (role1 role2 : String) : String × Nat :=
  match retriGo tok messages pairs max_input_tokens role1 role2
      (if messages.length = 0 then [] else pyRangeDown2 (messages.length - 1)) 0 0 [] with
  | (cur_len, count, ret) =>
    if count = 0 then ("", 0)
    else ("\n----------------\n" ++ String.join ret.reverse ++ "\n----------------\n", cur_len)

/-- Candidate document of `self_RAG`: only its `page_content` is consumed. -/
structure Document where
  page_content : String
deriving DecidableEq

/-- The `for idx, response in enumerate(response_list)` loop shared verbatim by
`self_RAG` (src/akasha/helper.py:1113-1118) and `check_relevant_answer`
(src/akasha/helper.py:1136-1140): walk the responses in order with `idx`
starting at `pos`; a response containing `yes` (case-insensitively) appends
`items[pos + idx]` to the kept list — `none` models the `IndexError` raised
when that read is out of range — and any other response increments the
irrelevant counter.  Returns the kept items (in order) and the final counter. -/
def gradeBatch {α : Type} (items : List α) : Nat → List String → Option (List α × Nat)
  | _, [] => some ([], 0)
  | pos, response :: rest =>
    if containsYes response then
      match items[pos]? with
      | none => none
      | some d =>
        match gradeBatch items (pos + 1) rest with
        | none => none
        | some (kept, irre_count) => some (d :: kept, irre_count)
    else
      match gradeBatch items (pos + 1) rest with
      | none => none
      | some (kept, irre_count) => some (kept, irre_count + 1)

/-- Grading input built by `self_RAG` for one document: the f-string
`Retrieved document: \n\n {content} \n\n User question: {question}` passed with
the document-grader system prompt through `format_sys_prompt`; the prompt
builder and the fixed system prompt are external collaborators passed in. -/
def docGraderInput (format_sys_prompt : String → String → String → String)
    (doc_grader_prompt : String) (question : String) (prompt_format_type : String)
    (d : Document) : String :=
  format_sys_prompt doc_grader_prompt
    ("Retrieved document: \n\n " ++ d.page_content ++ " \n\n User question: " ++ question)
    prompt_format_type

/-- The `while count < len(docs) and count < max_view_num` loop of `self_RAG`
(src/akasha/helper.py:1105-1120).  Per iteration: the batch is
`docs[count : count + min(process_num, len(docs) - count)]`, its prompts go to
`call_batch_model` in one call, the responses are graded by `gradeBatch` with
base index `count`, the loop breaks once a batch's irrelevant count reaches
`earlyend_num`, and otherwise `count` advances by `process_num`.  Alongside the
kept results the embedding also accumulates `viewed`, the list of documents
submitted to the grading call, so that view-ceiling claims are statable.  Fuel
exhaustion (`none`) models divergence, which the source exhibits when
`process_num = 0`; for `process_num ≥ 1` the initial fuel `docs.length + 1`
dominates the iteration count. -/
def selfRagLoop (call_batch_model : List String → List String)
    (mkInput : Document → String) (docs : List Document)
    (process_num earlyend_num max_view_num : Nat) :
    Nat → Nat → List Document → List Document → Option (List Document × List Document)
  | 0, _, _, _ => none
  | fuel + 1, count, results, viewed =>
    if count < docs.length ∧ count < max_view_num then
      match gradeBatch docs count
          (call_batch_model (((docs.drop count).take process_num).map mkInput)) with
      | none => none
      | some (kept, irre_count) =>
        if earlyend_num ≤ irre_count then
          some (results ++ kept, viewed ++ (docs.drop count).take process_num)
        else
          selfRagLoop call_batch_model mkInput docs process_num earlyend_num max_view_num
            fuel (count + process_num) (results ++ kept)
            (viewed ++ (docs.drop count).take process_num)
    else some (results, viewed)

/-- Relevance Filter Loop `self_RAG` (src/akasha/helper.py:1073-1120),
instrumented: returns the kept documents together with the list of documents
that were submitted to the grading call. -/
def self_RAG_run (call_batch_model : List String → List String)
    (format_sys_prompt : String → String → String → String)
    (doc_grader_prompt : String) (question : String) (docs : List Document)
    (process_num earlyend_num max_view_num : Nat) (prompt_format_type : String) :
    Option (List Document × List Document) :=
  selfRagLoop call_batch_model
    (docGraderInput format_sys_prompt doc_grader_prompt question prompt_format_type)
    docs process_num earlyend_num max_view_num (docs.length + 1) 0 [] []

/-- Relevance Filter Loop `self_RAG`, result as in the source: the kept
documents only. -/
def self_RAG (call_batch_model : List String → List String)
    (format_sys_prompt : String → String → String → String)
    (doc_grader_prompt : String) (question : String) (docs : List Document)
    (process_num earlyend_num max_view_num : Nat) (prompt_format_type : String) :
    Option (List Document) :=
  (self_RAG_run call_batch_model format_sys_prompt doc_grader_prompt question docs
    process_num earlyend_num max_view_num prompt_format_type).map (fun r => r.1)

/-- Grading input built by `check_relevant_answer` for one candidate answer:
the f-string `Retrieved answer: \n\n {answer} \n\n User question: {question}`
with the answer-grader system prompt. -/
def answerGraderInput (format_sys_prompt : String → String → String → String)
    (answer_grader_prompt : String) (question : String) (prompt_format_type : String)
    (r : String) : String :=
  format_sys_prompt answer_grader_prompt
    ("Retrieved answer: \n\n " ++ r ++ " \n\n User question: " ++ question)
    prompt_format_type

/-- Answer-relevance filter `check_relevant_answer`
(src/akasha/helper.py:1123-1141): build one prompt per candidate answer, send
all of them to `call_batch_model` in a single call, and keep the answers whose
response contains `yes` — there is no batching loop, no early-stop rule and no
view ceiling in the source. -/
def check_relevant_answer (call_batch_model : List String → List String)
    (format_sys_prompt : String → String → String → String)
    (answer_grader_prompt : String) (batch_responses : List String)
    (question : String) (prompt_format_type : String) : Option (List String) :=
  (gradeBatch batch_responses 0
      (call_batch_model (batch_responses.map
        (answerGraderInput format_sys_prompt answer_grader_prompt question
          prompt_format_type)))).map (fun r => r.1)

/-! ### Helper lemmas for the Token-Budget Packer -/

/-- Loop invariant of `getTextGo`: a running count strictly below the budget
stays strictly below the budget, because a chunk is only added while
`cur_count + words_len < max_input_tokens`. -/
theorem getTextGo_count_lt (tok : String → Nat) (texts : List String) (maxTok : Int)
    (fuel : Nat) : ∀ (cur_count words_len : Nat) (cur_text : String) (i : Nat),
    (cur_count : Int) < maxTok →
    ((getTextGo tok texts maxTok fuel cur_count words_len cur_text i).1 : Int) < maxTok := by
  induction fuel with
  | zero => intro cur_count words_len cur_text i h; exact h
  | succ fuel ih =>
    intro cur_count words_len cur_text i h
    rw [getTextGo]
    split
    · exact ih _ _ _ _ (by omega)
    · exact h

/-- When the entry condition of the `while` loop already fails, `getTextGo`
returns its state unchanged. -/
theorem getTextGo_stop (tok : String → Nat) (texts : List String) (maxTok : Int)
    (fuel cur_count words_len : Nat) (cur_text : String) (i : Nat)
    (h : ¬ (((cur_count + words_len : Nat) : Int) < maxTok ∧ i < texts.length)) :
    getTextGo tok texts maxTok (fuel + 1) cur_count words_len cur_text i =
      (cur_count, cur_text, i) := by
  rw [getTextGo, if_neg h]

/-! ### Claim C1 -/

/-- Claim C1, counterexample: a call of `_get_text` whose seed summary already
counts 5 tokens against a budget of 3 returns an accumulated token count of 5,
which is not strictly below the budget — the while-condition only guards the
chunks that the loop adds, never the seed count it starts from. -/
theorem C1_packer_budget_counterexample :
    _get_text String.length ["a"] "aaaaa" 0 3 = some (5, "", 0) ∧ ¬ ((5 : Int) < 3) := by
  decide

/-- Claim C1 (amended): for every call of `_get_text` that returns, the
returned accumulated token count is strictly below the budget provided the
seed summary's token count is itself strictly below the budget. -/
theorem C1_packer_budget (tok : String → Nat) (texts : List String)
    (previous_summary : String) (i : Nat) (maxTok : Int)
    (hseed : ((tok previous_summary : Nat) : Int) < maxTok)
    (res : Nat × String × Nat)
    (hres : _get_text tok texts previous_summary i maxTok = some res) :
    ((res.1 : Nat) : Int) < maxTok := by
  unfold _get_text at hres
  cases h : texts[i]? with
  | none => rw [h] at hres; simp at hres
  | some t0 =>
    rw [h] at hres
    simp only [Option.map_some', Option.some.injEq] at hres
    rw [← hres]
    exact getTextGo_count_lt tok texts maxTok (texts.length + 1) _ _ ("") i hseed

/-- Claim C1, witness: the amended theorem applied at a concrete call. -/
theorem C1_packer_budget_witness :
    ((String.length "" : Nat) : Int) < 3 ∧ (((1, "a\n", 1) : Nat × String × Nat).1 : Int) < 3 :=
  ⟨by decide, C1_packer_budget String.length ["a"] "" 0 3 (by decide) (1, "a\n", 1) (by decide)⟩

/-! ### Claim C4 -/

/-- Claim C4, counterexample: `_get_text` on an empty chunk sequence (with
`start_index = 0`, a positive budget and an empty seed) does not return an
empty/no-op result — the unconditional read `texts[i]` raises `IndexError`
(modelled by `none`) before the loop is reached. -/
theorem C4_packer_empty_counterexample :
    _get_text String.length [] "" 0 5 = none := by decide

/-- Claim C4 (amended): for every call of `_get_text` with a budget ≤ 0 and a
start index strictly inside the chunk list, the call returns the no-op result
(seed token count, empty accumulated text, unchanged index) without failing;
with an empty chunk sequence (or `start_index = len(chunks)`) the code instead
raises `IndexError` rather than returning an empty result. -/
theorem C4_packer_nonpositive_budget (tok : String → Nat) (texts : List String)
    (previous_summary : String) (i : Nat) (maxTok : Int)
    (hbudget : maxTok ≤ 0) (hi : i < texts.length) :
    _get_text tok texts previous_summary i maxTok =
      some (tok previous_summary, "", i) := by
  unfold _get_text
  rw [List.getElem?_eq_getElem hi]
  simp only [Option.map_some', Option.some.injEq]
  exact getTextGo_stop tok texts maxTok texts.length _ _ ("") i
    (by rintro ⟨hlt, -⟩; omega)

/-- Claim C4, witness: the amended theorem applied at a concrete call with
budget 0. -/
theorem C4_packer_witness :
    (0 : Int) ≤ 0 ∧ 0 < ["abc"].length ∧
      _get_text String.length ["abc"] "seed" 0 0 = some (4, "", 0) :=
  ⟨by decide, by decide,
    C4_packer_nonpositive_budget String.length ["abc"] "seed" 0 0 (by decide) (by decide)⟩

/-! ### Claim C8 -/

/-- Claim C8: whenever the very first candidate chunk would already push the
running count to the budget or beyond, `_get_text` adds zero chunks: it
returns the seed token count, an empty accumulated text, and a next index
equal to the start index. -/
theorem C8_packer_no_progress (tok : String → Nat) (texts : List String)
    (previous_summary : String) (i : Nat) (maxTok : Int) (hi : i < texts.length)
    (hover : maxTok ≤ ((tok previous_summary + tok (texts.get ⟨i, hi⟩) : Nat) : Int)) :
    _get_text tok texts previous_summary i maxTok =
      some (tok previous_summary, "", i) := by
  unfold _get_text
  rw [List.getElem?_eq_getElem hi]
  simp only [Option.map_some', Option.some.injEq]
  exact getTextGo_stop tok texts maxTok texts.length _ _ ("") i
    (by rintro ⟨hlt, -⟩; simp only [List.get_eq_getElem] at hover; omega)

/-- Claim C8, witness: a single chunk of 3 tokens against a budget of 3 with an
empty seed yields zero chunks and an unchanged index. -/
theorem C8_packer_witness :
    0 < ["aaa"].length ∧
      _get_text String.length ["aaa"] "" 0 3 = some (0, "", 0) :=
  ⟨by decide, C8_packer_no_progress String.length ["aaa"] "" 0 3 (by decide) (by decide)⟩

/-! ### Claim C3 -/

/-- Claim C3, behavior at the failing input: in the transcript
`[User q1, Assistant a1, User q2]` the backward walk examines indices 2 and 0,
both of which fail the alternation check.  Were the mismatch handled by
advancing the index by one entry, as claimed, the walk would next examine
index 1 and collect the `(q1, a1)` pair; instead the source's `i += 1` is a
reassignment of a `for ... in range(...)` loop variable, which Python ignores,
so the walk advances by two entries, collects nothing, and returns `("", 0)`. -/
theorem C3_history_skip_behavior :
    retri_history_messages String.length
      [⟨"User", "q1"⟩, ⟨"Assistant", "a1"⟩, ⟨"User", "q2"⟩] 10 1000 "User" "Assistant"
      = ("", 0) := by decide

/-! ### Claim C9 -/

/-- Claim C9, counterexample: a transcript whose only examined pair has an
assistant line of 14 tokens (within the budget 15) and a user line of 7 tokens
that alone would overflow.  The claim says the pair is truncated mid-pair with
the assistant line kept in the returned text, but the code breaks before
`count` is ever incremented, and the `count == 0` branch discards the appended
assistant line, returning `("", 0)`. -/
theorem C9_history_midpair_counterexample :
    retri_history_messages String.length
      [⟨"User", "q"⟩, ⟨"Assistant", "aa"⟩] 10 15 "User" "Assistant" = ("", 0) := by decide

/-- Claim C9 (amended): the budget check is applied independently to the
assistant line and the user line, so a pair whose assistant line fits while
its user line alone would overflow is truncated mid-pair with only its
assistant line kept — provided at least one complete pair was collected
before it; with no previously collected pair the truncated line is discarded
by the `count == 0` branch.  Stated for a four-entry transcript whose newest
pair fits entirely and whose older pair overflows at its user line. -/
theorem C9_history_midpair (tok : String → Nat) (role1 role2 qB aB qA aA : String)
    (pairs B : Nat) (hp : 2 ≤ pairs)
    (h1 : tok (role2 ++ ": " ++ stripNL aA ++ "\n") ≤ B)
    (h2 : tok (role2 ++ ": " ++ stripNL aA ++ "\n") + tok (role1 ++ ": " ++ stripNL qA) ≤ B)
    (h3 : tok (role2 ++ ": " ++ stripNL aA ++ "\n") + tok (role1 ++ ": " ++ stripNL qA)
        + tok (role2 ++ ": " ++ stripNL aB ++ "\n") ≤ B)
    (h4 : B < tok (role2 ++ ": " ++ stripNL aA ++ "\n") + tok (role1 ++ ": " ++ stripNL qA)
        + tok (role2 ++ ": " ++ stripNL aB ++ "\n") + tok (role1 ++ ": " ++ stripNL qB)) :
    retri_history_messages tok
      [⟨role1, qB⟩, ⟨role2, aB⟩, ⟨role1, qA⟩, ⟨role2, aA⟩] pairs B role1 role2
      = ("\n----------------\n" ++ ((role2 ++ ": " ++ stripNL aB ++ "\n")
          ++ ((role1 ++ ": " ++ stripNL qA) ++ ((role2 ++ ": " ++ stripNL aA ++ "\n") ++ "")))
          ++ "\n----------------\n",
         tok (role2 ++ ": " ++ stripNL aA ++ "\n") + tok (role1 ++ ": " ++ stripNL qA)
          + tok (role2 ++ ": " ++ stripNL aB ++ "\n")) := by
  unfold retri_history_messages
  norm_num [pyRangeDown2]
  rw [retriGo, if_neg (by omega : ¬ (pairs ≤ 0))]
  simp only [pyPrevMessage, List.getD, List.length_cons, List.length_nil, List.getElem?_cons_succ,
    List.getElem?_cons_zero, Option.getD_some, ne_eq]
  norm_num
  rw [if_neg (by omega : ¬ (B < tok (role2 ++ ": " ++ stripNL aA ++ "\n")))]
  rw [if_neg (by omega : ¬ (B < tok (role2 ++ ": " ++ stripNL aA ++ "\n")
    + tok (role1 ++ ": " ++ stripNL qA)))]
  rw [retriGo, if_neg (by omega : ¬ (pairs ≤ 1))]
  simp only [pyPrevMessage, List.getD, List.length_cons, List.length_nil,
    List.getElem?_cons_succ, List.getElem?_cons_zero, Option.getD_some, ne_eq]
  norm_num
  rw [if_neg (by omega : ¬ (B < tok (role2 ++ ": " ++ stripNL aA ++ "\n")
    + tok (role1 ++ ": " ++ stripNL qA) + tok (role2 ++ ": " ++ stripNL aB ++ "\n")))]
  rw [if_pos (by omega : B < tok (role2 ++ ": " ++ stripNL aA ++ "\n")
    + tok (role1 ++ ": " ++ stripNL qA) + tok (role2 ++ ": " ++ stripNL aB ++ "\n")
    + tok (role1 ++ ": " ++ stripNL qB))]
  simp [String.join, String.append_assoc]

/-- Claim C9, witness: the amended theorem applied at a concrete four-entry
transcript with a length tokenizer and budget 40, under which the older pair
is truncated mid-pair and its assistant line survives in the output. -/
theorem C9_history_midpair_witness :
    2 ≤ 10 ∧
      retri_history_messages String.length
        [⟨"User", "q1"⟩, ⟨"Assistant", "a1"⟩, ⟨"User", "q2"⟩, ⟨"Assistant", "a2"⟩]
        10 40 "User" "Assistant"
        = ("\n----------------\n" ++ (("Assistant" ++ ": " ++ stripNL ("a1") ++ "\n")
            ++ (("User" ++ ": " ++ stripNL ("q2")) ++ (("Assistant" ++ ": " ++ stripNL ("a2") ++ "\n") ++ "")))
            ++ "\n----------------\n",
           String.length ("Assistant" ++ ": " ++ stripNL ("a2") ++ "\n")
            + String.length ("User" ++ ": " ++ stripNL ("q2"))
            + String.length ("Assistant" ++ ": " ++ stripNL ("a1") ++ "\n")) :=
  ⟨by decide,
    C9_history_midpair String.length ("User") ("Assistant") ("q1") ("a1") ("q2") ("a2") 10 40
      (by decide) (by decide) (by decide) (by decide) (by decide)⟩

/-! ### Claim C10 -/

/-- Claim C10: on an odd-length transcript the backward walk reaches index 0,
where the source reads `messages[0 - 1] = messages[-1]`, which Python wraps to
the most recent message.  If the oldest entry carries `role2` and the newest
carries `role1`, the oldest entry's assistant line is paired with the newest
message's content as its user line in the returned text. -/
theorem C10_history_wraparound (tok : String → Nat) (role1 role2 rmid c0 cmid cnew : String)
    (pairs B : Nat) (hroles : role1 ≠ role2) (hp : 1 ≤ pairs)
    (h1 : tok (role2 ++ ": " ++ stripNL c0 ++ "\n") ≤ B)
    (h2 : tok (role2 ++ ": " ++ stripNL c0 ++ "\n") + tok (role1 ++ ": " ++ stripNL cnew) ≤ B) :
    retri_history_messages tok [⟨role2, c0⟩, ⟨rmid, cmid⟩, ⟨role1, cnew⟩] pairs B role1 role2
      = ("\n----------------\n" ++ ((role1 ++ ": " ++ stripNL cnew)
          ++ ((role2 ++ ": " ++ stripNL c0 ++ "\n") ++ "")) ++ "\n----------------\n",
         tok (role2 ++ ": " ++ stripNL c0 ++ "\n") + tok (role1 ++ ": " ++ stripNL cnew)) := by
  unfold retri_history_messages
  norm_num [pyRangeDown2]
  rw [retriGo, if_neg (by omega : ¬ (pairs ≤ 0))]
  simp only [pyPrevMessage, List.getD, List.length_cons, List.length_nil,
    List.getElem?_cons_succ, List.getElem?_cons_zero, Option.getD_some, ne_eq]
  norm_num
  rw [if_pos (Or.inl hroles)]
  rw [retriGo, if_neg (by omega : ¬ (pairs ≤ 0))]
  simp only [pyPrevMessage, List.getD, List.length_cons, List.length_nil,
    List.getElem?_cons_succ, List.getElem?_cons_zero, Option.getD_some, ne_eq]
  norm_num
  rw [if_neg (by omega : ¬ (B < tok (role2 ++ ": " ++ stripNL c0 ++ "\n")))]
  rw [if_neg (by omega : ¬ (B < tok (role2 ++ ": " ++ stripNL c0 ++ "\n")
    + tok (role1 ++ ": " ++ stripNL cnew)))]
  rw [retriGo]
  simp [String.join, String.append_assoc]

/-- Claim C10, witness: the theorem applied at a concrete three-entry
transcript whose oldest entry is an assistant message and whose newest is a
user message. -/
theorem C10_history_wraparound_witness :
    ("User" : String) ≠ "Assistant" ∧ 1 ≤ 10 ∧
      retri_history_messages String.length
        [⟨"Assistant", "old"⟩, ⟨"x", "mid"⟩, ⟨"User", "new"⟩] 10 100 "User" "Assistant"
        = ("\n----------------\n" ++ (("User" ++ ": " ++ stripNL ("new"))
            ++ (("Assistant" ++ ": " ++ stripNL ("old") ++ "\n") ++ "")) ++ "\n----------------\n",
           String.length ("Assistant" ++ ": " ++ stripNL ("old") ++ "\n")
            + String.length ("User" ++ ": " ++ stripNL ("new"))) :=
  ⟨by decide, by decide,
    C10_history_wraparound String.length ("User") ("Assistant") ("x") ("old") ("mid") ("new") 10 100
      (by decide) (by decide) (by decide) (by decide)⟩

/-! ### Claim C2 -/

/-- Claim C2: with `process_num = 3`, `earlyend_num = 2`, a grading oracle that
grades the first batch `[no, no, yes]` (by position, independently of the
prompt text), and five candidate documents, `self_RAG` resets the irrelevant
counter for the batch, reaches the early-stop threshold 2 inside the first
batch, and terminates immediately: it returns exactly the single document
graded relevant, and the list of documents submitted to the grading call is
exactly the first batch — no document beyond the first batch is ever viewed. -/
theorem C2_filter_early_stop (c1 c2 c3 c4 c5 : String) :
    self_RAG_run
      (fun l => (List.range l.length).map (fun k => if k = 2 then ("yes") else ("no")))
      (fun _ prod _ => prod) "" "Q"
      [⟨c1⟩, ⟨c2⟩, ⟨c3⟩, ⟨c4⟩, ⟨c5⟩] 3 2 100 "gpt"
      = some ([⟨c3⟩], [⟨c1⟩, ⟨c2⟩, ⟨c3⟩]) := by
  rfl

/-! ### Helper lemmas for the Relevance Filter Loop -/

/-- View-ceiling invariant of `selfRagLoop`: starting from a viewed list no
longer than `count`, the final viewed list either stays within `count` (no
batch ran) or is strictly below `max_view_num + process_num` — a new batch is
started only while `count < max_view_num` and contributes at most
`process_num` documents. -/
theorem selfRagLoop_viewed_le (cb : List String → List String) (mk : Document → String)
    (docs : List Document) (pn en mv : Nat) :
    ∀ (fuel count : Nat) (results viewed r v : List Document),
    viewed.length ≤ count →
    selfRagLoop cb mk docs pn en mv fuel count results viewed = some (r, v) →
    v.length ≤ count ∨ v.length < mv + pn := by
  intro fuel
  induction fuel with
  | zero => intro count results viewed r v _ h; simp [selfRagLoop] at h
  | succ fuel ih =>
    intro count results viewed r v hlen h
    rw [selfRagLoop] at h
    split at h
    · rename_i hcond
      cases hg : gradeBatch docs count
          (cb (((docs.drop count).take pn).map mk)) with
      | none => rw [hg] at h; exact absurd h (by simp)
      | some p =>
        rw [hg] at h
        cases p with
        | mk kept irre =>
          simp only at h
          split at h
          · simp only [Option.some.injEq, Prod.mk.injEq] at h
            right
            have hbatch : ((docs.drop count).take pn).length ≤ pn := List.length_take_le pn _
            have : v.length ≤ count + pn := by
              rw [← h.2]; simp only [List.length_append]; omega
            omega
          · have hnext : (viewed ++ (docs.drop count).take pn).length ≤ count + pn := by
              simp only [List.length_append]
              have := List.length_take_le pn (docs.drop count)
              omega
            rcases ih (count + pn) (results ++ kept)
                (viewed ++ (docs.drop count).take pn) r v hnext h with h1 | h1
            · right; omega
            · right; exact h1
    · simp only [Option.some.injEq, Prod.mk.injEq] at h
      left
      rw [← h.2]
      exact hlen

/-! ### Claim C5 -/

/-- Claim C5: for every run of `self_RAG` that returns, the total number of
candidate documents submitted for grading (the instrumented `viewed` log)
never exceeds the `max_view_num` ceiling rounded up by one batch of
`process_num` documents — a new batch starts only while the count of already
viewed items is below `max_view_num`. -/
theorem C5_filter_view_ceiling (cb : List String → List String)
    (fmt : String → String → String → String) (dgp q : String)
    (docs : List Document) (pn en mv : Nat) (ft : String) (r v : List Document)
    (h : self_RAG_run cb fmt dgp q docs pn en mv ft = some (r, v)) :
    v.length ≤ mv + pn := by
  unfold self_RAG_run at h
  rcases selfRagLoop_viewed_le cb _ docs pn en mv (docs.length + 1) 0 [] [] r v
      (by simp) h with h1 | h1 <;> omega

/-- Claim C5, witness: the theorem applied at the concrete early-stop run used
for Claim C2, where three documents are viewed against a ceiling of 100. -/
theorem C5_filter_view_ceiling_witness :
    self_RAG_run
      (fun l => (List.range l.length).map (fun k => if k = 2 then ("yes") else ("no")))
      (fun _ prod _ => prod) "" "Q"
      [⟨"d1"⟩, ⟨"d2"⟩, ⟨"d3"⟩, ⟨"d4"⟩, ⟨"d5"⟩] 3 2 100 "gpt"
      = some ([⟨"d3"⟩], [⟨"d1"⟩, ⟨"d2"⟩, ⟨"d3"⟩]) ∧
    ([⟨"d1"⟩, ⟨"d2"⟩, ⟨"d3"⟩] : List Document).length ≤ 100 + 3 :=
  ⟨by decide,
    C5_filter_view_ceiling
      (fun l => (List.range l.length).map (fun k => if k = 2 then ("yes") else ("no")))
      (fun _ prod _ => prod) "" "Q"
      [⟨"d1"⟩, ⟨"d2"⟩, ⟨"d3"⟩, ⟨"d4"⟩, ⟨"d5"⟩] 3 2 100 "gpt"
      [⟨"d3"⟩] [⟨"d1"⟩, ⟨"d2"⟩, ⟨"d3"⟩] (by decide)⟩

/-- Kept items of one graded batch form a subsequence of the items from the
base position on: the enumerate loop appends `items[pos + idx]` for increasing
`idx`, in order. -/
theorem gradeBatch_sublist {α : Type} (items : List α) :
    ∀ (rs : List String) (pos : Nat) (kept : List α) (irre : Nat),
    gradeBatch items pos rs = some (kept, irre) → kept.Sublist (items.drop pos) := by
  intro rs
  induction rs with
  | nil =>
    intro pos kept irre h
    simp only [gradeBatch, Option.some.injEq, Prod.mk.injEq] at h
    rw [← h.1]
    exact List.nil_sublist _
  | cons r rest ih =>
    intro pos kept irre h
    rw [gradeBatch] at h
    split at h
    · cases hd : items[pos]? with
      | none => rw [hd] at h; exact absurd h (by simp)
      | some d =>
        rw [hd] at h
        cases hg : gradeBatch items (pos + 1) rest with
        | none => rw [hg] at h; exact absurd h (by simp)
        | some p =>
          rw [hg] at h
          cases p with
          | mk k2 ir2 =>
            simp only [Option.some.injEq, Prod.mk.injEq] at h
            rw [← h.1]
            have hpos : pos < items.length := by
              by_contra hc
              rw [List.getElem?_eq_none (by omega)] at hd
              exact absurd hd (by simp)
            have hdrop : items.drop pos = items[pos] :: items.drop (pos + 1) :=
              List.drop_eq_getElem_cons hpos
            have hdval : items[pos] = d := by
              rw [List.getElem?_eq_getElem hpos] at hd
              exact Option.some.inj hd
            rw [hdrop, hdval]
            exact List.Sublist.cons₂ d (ih (pos + 1) k2 ir2 hg)
    · cases hg : gradeBatch items (pos + 1) rest with
      | none => rw [hg] at h; exact absurd h (by simp)
      | some p =>
        rw [hg] at h
        cases p with
        | mk k2 ir2 =>
          simp only [Option.some.injEq, Prod.mk.injEq] at h
          rw [← h.1]
          exact (ih (pos + 1) k2 ir2 hg).trans
            (by rw [← List.tail_drop]; exact List.tail_sublist _)

/-- Strengthening of `gradeBatch_sublist`: the kept items lie within the
window of `items` that starts at the base position and has the length of the
response list. -/
theorem gradeBatch_sublist_take {α : Type} (items : List α) :
    ∀ (rs : List String) (pos : Nat) (kept : List α) (irre : Nat),
    gradeBatch items pos rs = some (kept, irre) →
    kept.Sublist ((items.drop pos).take rs.length) := by
  intro rs
  induction rs with
  | nil =>
    intro pos kept irre h
    simp only [gradeBatch, Option.some.injEq, Prod.mk.injEq] at h
    rw [← h.1]
    exact List.nil_sublist _
  | cons r rest ih =>
    intro pos kept irre h
    rw [gradeBatch] at h
    split at h
    · cases hd : items[pos]? with
      | none => rw [hd] at h; exact absurd h (by simp)
      | some d =>
        rw [hd] at h
        cases hg : gradeBatch items (pos + 1) rest with
        | none => rw [hg] at h; exact absurd h (by simp)
        | some p =>
          rw [hg] at h
          cases p with
          | mk k2 ir2 =>
            simp only [Option.some.injEq, Prod.mk.injEq] at h
            rw [← h.1]
            have hpos : pos < items.length := by
              by_contra hc
              rw [List.getElem?_eq_none (by omega)] at hd
              exact absurd hd (by simp)
            have hdrop : items.drop pos = items[pos] :: items.drop (pos + 1) :=
              List.drop_eq_getElem_cons hpos
            have hdval : items[pos] = d := by
              rw [List.getElem?_eq_getElem hpos] at hd
              exact Option.some.inj hd
            rw [hdrop, hdval, List.length_cons, List.take_succ_cons]
            exact List.Sublist.cons₂ d (ih (pos + 1) k2 ir2 hg)
    · cases hg : gradeBatch items (pos + 1) rest with
      | none => rw [hg] at h; exact absurd h (by simp)
      | some p =>
        rw [hg] at h
        cases p with
        | mk k2 ir2 =>
          simp only [Option.some.injEq, Prod.mk.injEq] at h
          rw [← h.1]
          have hk2 := ih (pos + 1) k2 ir2 hg
          rw [← List.tail_drop] at hk2
          cases hdp : items.drop pos with
          | nil =>
            rw [hdp] at hk2
            simp only [List.tail_nil, List.take_nil] at hk2
            rw [List.sublist_nil] at hk2
            rw [hk2]
            exact List.nil_sublist _
          | cons a t =>
            rw [hdp] at hk2
            simp only [List.tail_cons] at hk2
            rw [List.length_cons, List.take_succ_cons]
            exact List.Sublist.cons a hk2

/-- Results invariant of `selfRagLoop` under the grading contract (one
response per prompt): a results accumulator that is a subsequence of the first
`count` documents yields a final result that is a subsequence of the whole
document list, because each batch's kept items are a subsequence of the batch
window `docs[count : count + process_num]`. -/
theorem selfRagLoop_results_sublist (cb : List String → List String)
    (mk : Document → String) (docs : List Document) (pn en mv : Nat)
    (hcb : ∀ l, (cb l).length = l.length) :
    ∀ (fuel count : Nat) (results viewed r v : List Document),
    results.Sublist (docs.take count) →
    selfRagLoop cb mk docs pn en mv fuel count results viewed = some (r, v) →
    r.Sublist docs := by
  intro fuel
  induction fuel with
  | zero => intro count results viewed r v _ h; simp [selfRagLoop] at h
  | succ fuel ih =>
    intro count results viewed r v hres h
    rw [selfRagLoop] at h
    split at h
    · cases hg : gradeBatch docs count
          (cb (((docs.drop count).take pn).map mk)) with
      | none => rw [hg] at h; exact absurd h (by simp)
      | some p =>
        rw [hg] at h
        cases p with
        | mk kept irre =>
          have hkept : kept.Sublist ((docs.drop count).take pn) := by
            have h1 := gradeBatch_sublist_take docs _ count kept irre hg
            have h2 : (cb (((docs.drop count).take pn).map mk)).length
                = ((docs.drop count).take pn).length := by
              rw [hcb, List.length_map]
            rw [h2] at h1
            exact h1.trans (List.take_sublist_take_left _ (List.length_take_le _ _))
          simp only at h
          split at h
          · simp only [Option.some.injEq, Prod.mk.injEq] at h
            rw [← h.1]
            have hcomb : (results ++ kept).Sublist (docs.take (count + pn)) := by
              rw [List.take_add]; exact hres.append hkept
            exact hcomb.trans (List.take_sublist _ _)
          · refine ih (count + pn) (results ++ kept) _ r v ?_ h
            rw [List.take_add]
            exact hres.append hkept
    · simp only [Option.some.injEq, Prod.mk.injEq] at h
      rw [← h.1]
      exact hres.trans (List.take_sublist _ _)

/-! ### Claim C7 -/

/-- Claim C7: both relevance filters only select candidates, never mutate
them: whenever `self_RAG` returns (under the grading contract that
`call_batch_model` yields one response per prompt), its result is a
subsequence — a subset preserving original order — of the input document
list, and whenever `check_relevant_answer` returns, its result is a
subsequence of the input answer list. -/
theorem C7_filters_subsequence :
    (∀ (cb : List String → List String) (fmt : String → String → String → String)
      (dgp q : String) (docs : List Document) (pn en mv : Nat) (ft : String)
      (r v : List Document),
      (∀ l, (cb l).length = l.length) →
      self_RAG_run cb fmt dgp q docs pn en mv ft = some (r, v) →
      r.Sublist docs) ∧
    (∀ (cb : List String → List String) (fmt : String → String → String → String)
      (agp : String) (brs : List String) (q ft : String) (r : List String),
      check_relevant_answer cb fmt agp brs q ft = some r →
      r.Sublist brs) := by
  constructor
  · intro cb fmt dgp q docs pn en mv ft r v hcb h
    exact selfRagLoop_results_sublist cb _ docs pn en mv hcb (docs.length + 1) 0 [] [] r v
      (by simp) h
  · intro cb fmt agp brs q ft r h
    unfold check_relevant_answer at h
    cases hg : gradeBatch brs 0 (cb (brs.map (answerGraderInput fmt agp q ft))) with
    | none => rw [hg] at h; exact absurd h (by simp)
    | some p =>
      rw [hg] at h
      simp only [Option.map_some', Option.some.injEq] at h
      rw [← h]
      have := gradeBatch_sublist brs _ 0 p.1 p.2 (by rw [hg])
      simpa using this

/-- Claim C7, witness: both halves of the theorem applied at concrete runs —
an all-relevant two-document run of `self_RAG` and a first-only-relevant run
of `check_relevant_answer`. -/
theorem C7_filters_subsequence_witness :
    ([⟨"a"⟩, ⟨"b"⟩] : List Document).Sublist [⟨"a"⟩, ⟨"b"⟩] ∧
      (["x"] : List String).Sublist ["x", "y"] :=
  ⟨C7_filters_subsequence.1 (fun l => l.map (fun _ => ("yes"))) (fun _ prod _ => prod)
      "" "Q" [⟨"a"⟩, ⟨"b"⟩] 1 5 100 "gpt" [⟨"a"⟩, ⟨"b"⟩] [⟨"a"⟩, ⟨"b"⟩]
      (fun l => by simp) (by decide),
    C7_filters_subsequence.2 (fun l => (List.range l.length).map
        (fun k => if k = 0 then ("yes") else ("no")))
      (fun _ prod _ => prod) "" ["x", "y"] "Q" "gpt" ["x"] (by decide)⟩

/-- Evaluation of `gradeBatch` when the responses are aligned with the items
from the base position on (one response per item, in order, produced by a
per-item grader): every item is examined, the kept list is the order-preserving
filter of the graded-relevant items, and the counter is the number of
graded-irrelevant ones. -/
theorem gradeBatch_aligned {α : Type} (g : α → String) (items : List α) :
    ∀ (xs : List α) (pos : Nat), items.drop pos = xs →
    gradeBatch items pos (xs.map g) =
      some (xs.filter (fun x => containsYes (g x)),
        (xs.filter (fun x => !containsYes (g x))).length) := by
  intro xs
  induction xs with
  | nil => intro pos _; simp [gradeBatch]
  | cons x xs2 ih =>
    intro pos hdrop
    have hpos : pos < items.length := by
      by_contra hc
      rw [List.drop_eq_nil_of_le (by omega)] at hdrop
      exact absurd hdrop (by simp)
    have hget : items[pos]? = some x := by
      have h0 : (items.drop pos)[0]? = some x := by rw [hdrop]; simp
      rw [List.getElem?_drop] at h0
      simpa using h0
    have htail : items.drop (pos + 1) = xs2 := by
      rw [← List.tail_drop, hdrop]
      rfl
    rw [List.map_cons, gradeBatch]
    cases hy : containsYes (g x) with
    | true =>
      simp only [hy, if_true, hget, ih (pos + 1) htail]
      simp [List.filter_cons, hy]
    | false =>
      simp only [hy, Bool.false_eq_true, if_false, ih (pos + 1) htail]
      simp [List.filter_cons, hy]

/-! ### Claim C6 -/

/-- Claim C6, counterexample: the two grading call sites do not share the
batched early-stop loop shape.  With the same positional grading oracle
(first ten prompts graded irrelevant, the eleventh relevant), the same eleven
candidate texts and the source's default loop parameters, `self_RAG` views
only its first batch of ten documents, hits the early-stop threshold and
returns no documents, while `check_relevant_answer` submits all eleven
candidates in one single batch — beyond any early stop that an identical loop
would have taken — and returns the eleventh. -/
theorem C6_call_sites_counterexample :
    self_RAG_run
      (fun l => (List.range l.length).map (fun k => if k = 10 then ("yes") else ("no")))
      (fun _ prod _ => prod) "" "Q"
      [⟨"c1"⟩, ⟨"c2"⟩, ⟨"c3"⟩, ⟨"c4"⟩, ⟨"c5"⟩, ⟨"c6"⟩, ⟨"c7"⟩, ⟨"c8"⟩, ⟨"c9"⟩, ⟨"c10"⟩, ⟨"c11"⟩]
      10 8 100 "gpt"
      = some ([], [⟨"c1"⟩, ⟨"c2"⟩, ⟨"c3"⟩, ⟨"c4"⟩, ⟨"c5"⟩, ⟨"c6"⟩, ⟨"c7"⟩, ⟨"c8"⟩, ⟨"c9"⟩, ⟨"c10"⟩]) ∧
    check_relevant_answer
      (fun l => (List.range l.length).map (fun k => if k = 10 then ("yes") else ("no")))
      (fun _ prod _ => prod) ""
      ["c1", "c2", "c3", "c4", "c5", "c6", "c7", "c8", "c9", "c10", "c11"] "Q" "gpt"
      = some ["c11"] := by decide

/-- Claim C6 (amended): the two grading call sites share only the per-item
keep-if-yes selection rule and order preservation; `check_relevant_answer` has
no loop at all — for any per-prompt grader it submits every candidate answer
in one single `call_batch_model` call and returns exactly the order-preserving
filter of the answers graded relevant, with no per-batch early-stop rule and
no view ceiling, while the batched early-stop loop exists only in `self_RAG`. -/
theorem C6_answer_filter_single_batch (f : String → String)
    (fmt : String → String → String → String) (agp : String) (brs : List String)
    (q ft : String) :
    check_relevant_answer (fun l => l.map f) fmt agp brs q ft =
      some (brs.filter (fun r => containsYes (f (answerGraderInput fmt agp q ft r)))) := by
  unfold check_relevant_answer
  simp only [List.map_map]
  rw [gradeBatch_aligned (f ∘ answerGraderInput fmt agp q ft) brs brs 0 (by simp)]
  simp [Function.comp]
